import Mathlib

/-!
Verification of the 5G NR setting application core (src/app.py).

The core logic of the repository is in `src/app.py`:
* `get_speed_limit` (lines 16-21): parse a maxspeed tag, defaulting to 50;
* `get_building_levels` (lines 23-38): collect parseable floor counts;
* `estimate_population_density` (lines 40-55): density heuristic;
* `determine_5g_config` (lines 57-134): the radio-configuration decision table;
* the aggregation steps inlined in the `get_5g_config` endpoint
  (lines 156-166 for roads, lines 175-182 for buildings).

Python floats are modelled as exact rationals (`ℚ`); in particular `math.pi`
is modelled by `mathPi`, the exact rational value of the IEEE-754 double
`math.pi`.  Python `int(...)` applied to a string is modelled by `pyInt?`
(optional surrounding whitespace, optional sign, decimal digits); a parse
failure (Python `ValueError`) is `none`.
-/

/-- Parse a (whitespace-free) list of characters as a decimal natural number:
`none` unless the list is nonempty and all digits.  Helper for `pyInt?`. -/
def digitsNat? (cs : List Char) : Option Nat :=
  if cs = [] then none
  else if cs.all Char.isDigit then
    some (cs.foldl (fun a c => 10 * a + (c.toNat - 48)) 0)
  else none

/-- Strip leading and trailing whitespace from a list of characters.  Helper
modelling the whitespace tolerance of Python `int(...)`. -/
def stripChars (cs : List Char) : List Char :=
  ((cs.dropWhile Char.isWhitespace).reverse.dropWhile Char.isWhitespace).reverse

/-- Model of Python `int(s)` for a string `s`: strip surrounding whitespace,
allow one optional leading sign, then decimal digits.  `none` models the
`ValueError` raised on any other input (such as `walk`, `3.5` or the empty
string). -/
def pyInt? (s : String) : Option Int :=
  match stripChars s.toList with
  | [] => none
  | c :: rest =>
    if c = '-' then (digitsNat? rest).map (fun n => -(n : Int))
    else if c = '+' then (digitsNat? rest).map (fun n => (n : Int))
    else (digitsNat? (c :: rest)).map (fun n => (n : Int))

/-- `get_speed_limit` (app.py lines 16-21): convert a speed limit value to an
integer; return 50 if the conversion fails. -/
def get_speed_limit (value : String) : Int :=
  match pyInt? value with
  | some n => n
  | none => 50

/-- The tags of one road element; only the `maxspeed` key is consulted by the
code, so only it is modelled.  `none` means the key is absent. -/
structure RoadTags where
  maxspeed : Option String
deriving DecidableEq, Repr

/-- One element of the road query result; `tags = none` models an element
without a `tags` key. -/
structure RoadElem where
  tags : Option RoadTags
deriving DecidableEq, Repr

/-- The tags of one building element; only the `building:levels` and `levels`
keys are consulted by the code.  `none` means the key is absent. -/
structure BuildingTags where
  buildingLevels : Option String
  levels : Option String
deriving DecidableEq, Repr

/-- One element of the building query result; `tags = none` models an element
without a `tags` key. -/
structure BuildingElem where
  tags : Option BuildingTags
deriving DecidableEq, Repr

/-- Python `a or b` for two optional strings under Python truthiness: `None`
and the empty string are falsy, every other string is truthy.  This models
`element["tags"].get("building:levels") or element["tags"].get("levels")`
(app.py line 32). -/
def pyOr (a b : Option String) : Option String :=
  match a with
  | some s => if s = "" then b else some s
  | none => b

/-- `get_building_levels` (app.py lines 23-38): for each element carrying a
`tags` key, select `building:levels` `or` `levels` (Python truthiness), keep
the value only if it is truthy (`if level_value:`) and parses as an integer
(`ValueError` is silently swallowed). -/
def get_building_levels (elements : List BuildingElem) : List Int :=
  elements.filterMap (fun element =>
    match element.tags with
    | none => none
    | some t =>
      match pyOr t.buildingLevels t.levels with
      | none => none
      | some v => if v = "" then none else pyInt? v)

/-- The exact rational value of the IEEE-754 double `math.pi`
(`884279719003555 / 2^48`), the constant used by
`estimate_population_density`. -/
def mathPi : ℚ := 884279719003555 / 281474976710656

/-- The default value of the `radius` parameter of
`estimate_population_density` (app.py line 40). -/
def default_radius : ℚ := 5000

/-- The default value of the `occupants_per_floor` parameter of
`estimate_population_density` (app.py line 40). -/
def default_occupants_per_floor : ℚ := 30

/-- `estimate_population_density` (app.py lines 40-55):
`area_km2 = math.pi * ((radius / 1000) ** 2)`;
`estimated_population = building_count * avg_floors * occupants_per_floor`;
result `estimated_population / area_km2`.  Total model over `ℚ` (where
division by zero yields 0); `estimate_population_density_run` below models
the Python error behaviour of the division. -/
def estimate_population_density (building_count avg_floors radius occupants_per_floor : ℚ) : ℚ :=
  let area_km2 := mathPi * (radius / 1000) ^ 2
  let estimated_population := building_count * avg_floors * occupants_per_floor
  estimated_population / area_km2

/-- `estimate_population_density` with Python's error behaviour made explicit:
Python raises `ZeroDivisionError` exactly when the computed `area_km2` is
zero (modelled as `Except.error ()`), and otherwise silently returns the
quotient. -/
def estimate_population_density_run (building_count avg_floors radius occupants_per_floor : ℚ) :
    Except Unit ℚ :=
  let area_km2 := mathPi * (radius / 1000) ^ 2
  let estimated_population := building_count * avg_floors * occupants_per_floor
  if area_km2 = 0 then Except.error ()
  else Except.ok (estimated_population / area_km2)

/-- Subcarrier spacing values produced by `determine_5g_config`. -/
inductive Subcarrier
  | k15
  | k30
  | k60
  | k120
deriving DecidableEq, Repr

/-- Frequency bands produced by `determine_5g_config`. -/
inductive Frequency
  | m500
  | m700
  | g30
  | g35
deriving DecidableEq, Repr

/-- Cyclic prefix values produced by `determine_5g_config`. -/
inductive CyclicPrefix
  | normal
  | extended
deriving DecidableEq, Repr

/-- Area classifications produced by `determine_5g_config`. -/
inductive AreaType
  | bigCapital
  | urban
  | ruralMountain
deriving DecidableEq, Repr

/-- The record returned by `determine_5g_config` (app.py lines 129-134).
The field `cyclic` models the `cyclic_prefix` entry of the returned dict. -/
structure RadioConfig where
  subcarrier : Subcarrier
  frequency : Frequency
  cyclic : CyclicPrefix
  area_type : AreaType
deriving DecidableEq, Repr

/-- `determine_5g_config` (app.py lines 57-134), translated branch for
branch: density tiers at 5000 and 1000, then nested floor/speed checks. -/
def determine_5g_config (avg_speed population_density avg_floors : ℚ) : RadioConfig :=
  if population_density ≥ 5000 then
    if avg_floors < 3 then
      { area_type := AreaType.bigCapital
        frequency := Frequency.g35
        subcarrier :=
          if avg_speed ≥ 70 then Subcarrier.k60
          else if avg_speed < 50 then Subcarrier.k30
          else Subcarrier.k15
        cyclic := CyclicPrefix.normal }
    else
      { area_type := AreaType.bigCapital
        frequency := Frequency.g30
        subcarrier :=
          if avg_speed > 70 then Subcarrier.k30
          else if avg_speed > 50 then Subcarrier.k15
          else Subcarrier.k15
        cyclic := CyclicPrefix.normal }
  else if 1000 ≤ population_density ∧ population_density < 5000 then
    { area_type := AreaType.urban
      frequency := Frequency.m700
      cyclic := CyclicPrefix.extended
      subcarrier :=
        if avg_floors < 3 then
          if avg_speed > 70 then Subcarrier.k120
          else if avg_speed > 50 then Subcarrier.k60
          else Subcarrier.k30
        else
          if avg_speed > 70 then Subcarrier.k60
          else if avg_speed > 50 then Subcarrier.k30
          else Subcarrier.k30 }
  else
    { area_type := AreaType.ruralMountain
      frequency := Frequency.m500
      cyclic := CyclicPrefix.extended
      subcarrier :=
        if avg_speed > 70 then Subcarrier.k120
        else if avg_speed > 50 then Subcarrier.k60
        else Subcarrier.k30 }

/-- The road aggregation inlined in `get_5g_config` (app.py lines 156-163):
the list comprehension keeps every element that has a `tags` key containing a
`maxspeed` key, and applies `get_speed_limit` to the value. -/
def road_speed_values (elements : List RoadElem) : List Int :=
  elements.filterMap (fun way =>
    match way.tags with
    | none => none
    | some t =>
      match t.maxspeed with
      | none => none
      | some v => some (get_speed_limit v))

/-- The road feature pair computed by `get_5g_config` (app.py lines 156-163):
`avg_speed = sum(speed_values) / len(speed_values) if speed_values else 50`
and `road_count = len(road_data["elements"])`. -/
def aggregate_road_features (elements : List RoadElem) : ℚ × Nat :=
  let speed_values := road_speed_values elements
  (if speed_values = [] then 50
   else ((speed_values.sum : ℤ) : ℚ) / (speed_values.length : ℚ),
   elements.length)

/-- The building feature pair computed by `get_5g_config`
(app.py lines 175-179): `building_count = len(building_data["elements"])`,
`floor_list = get_building_levels(...)` and
`avg_floors = sum(floor_list) / len(floor_list) if floor_list else 1`. -/
def aggregate_building_features (elements : List BuildingElem) : Nat × ℚ :=
  let floor_list := get_building_levels elements
  (elements.length,
   if floor_list = [] then 1
   else ((floor_list.sum : ℤ) : ℚ) / (floor_list.length : ℚ))

/-- Spec-side subcarrier table, written from the claim's five rows:
area tiers by density, then floor split, then speed thresholds
first-match-wins. -/
def spec_subcarrier (avg_speed population_density avg_floors : ℚ) : Subcarrier :=
  if population_density ≥ 5000 then
    if avg_floors < 3 then
      if avg_speed ≥ 70 then Subcarrier.k60
      else if avg_speed < 50 then Subcarrier.k30
      else Subcarrier.k15
    else
      if avg_speed > 70 then Subcarrier.k30
      else Subcarrier.k15
  else if 1000 ≤ population_density ∧ population_density < 5000 then
    if avg_floors < 3 then
      if avg_speed > 70 then Subcarrier.k120
      else if avg_speed > 50 then Subcarrier.k60
      else Subcarrier.k30
    else
      if avg_speed > 70 then Subcarrier.k60
      else Subcarrier.k30
  else
    if avg_speed > 70 then Subcarrier.k120
    else if avg_speed > 50 then Subcarrier.k60
    else Subcarrier.k30

/-- Spec-side frequency table, written from the claim: BigCapital splits on
`avg_floors`, Urban and RuralMountain ignore floors and speed. -/
def spec_frequency (population_density avg_floors : ℚ) : Frequency :=
  if population_density ≥ 5000 then
    if avg_floors < 3 then Frequency.g35 else Frequency.g30
  else if 1000 ≤ population_density ∧ population_density < 5000 then Frequency.m700
  else Frequency.m500

/-- Spec-side cyclic prefix table, written from the claim: Normal for
BigCapital, Extended for Urban and RuralMountain. -/
def spec_cyclic (population_density : ℚ) : CyclicPrefix :=
  if population_density ≥ 5000 then CyclicPrefix.normal else CyclicPrefix.extended

/-- The empty string, as a named constant for concrete test tags. -/
def sEmpty : String := ""

/-- The string `0`, as a named constant for concrete test tags. -/
def sZero : String := "0"

/-- The string `4`, as a named constant for concrete test tags. -/
def sFour : String := "4"

/-- The string `-2`, as a named constant for concrete test tags. -/
def sNegTwo : String := "-2"

/-- The string `walk`, as a named constant for concrete test tags. -/
def sWalk : String := "walk"

/-- The maxspeed values of the samples that carry a `maxspeed` key, in
order. -/
def carried_maxspeeds (elements : List RoadElem) : List String :=
  elements.filterMap (fun way =>
    match way.tags with
    | none => none
    | some t => t.maxspeed)

/-- Spec-side average speed, written from the claim: the arithmetic mean over
all samples that carry a `maxspeed` key, after replacing every value that is
not an integer literal by 50 (which is what `get_speed_limit` does); 50 when
no sample carries the key. -/
def spec_avg_speed (elements : List RoadElem) : ℚ :=
  let carried := carried_maxspeeds elements
  let substituted := carried.map get_speed_limit
  if carried = [] then 50
  else ((substituted.sum : ℤ) : ℚ) / (carried.length : ℚ)

/-- Spec-side key selection, written from claim C5's words: read
`building:levels` and fall back to `levels` only when the former key is
ABSENT (not when its value is merely empty). -/
def spec_select_levels (t : BuildingTags) : Option String :=
  match t.buildingLevels with
  | some v => some v
  | none => t.levels

/-- Spec-side floor collection, written from claim C5's words: per sample,
select a value via `spec_select_levels`, include it when it parses as an
integer, skip it otherwise; skip samples with neither key (and samples with
no tags at all). -/
def spec_floor_values (elements : List BuildingElem) : List Int :=
  elements.filterMap (fun element =>
    match element.tags with
    | none => none
    | some t => (spec_select_levels t).bind pyInt?)

/-- Spec-side building aggregation, written from claim C5's words: count all
samples, and average the collected floor values with default 1. -/
def spec_building_features (elements : List BuildingElem) : Nat × ℚ :=
  let collected := spec_floor_values elements
  (elements.length,
   if collected = [] then 1
   else ((collected.sum : ℤ) : ℚ) / (collected.length : ℚ))

/-- Amended key selection for claim C5: fall back to `levels` when
`building:levels` is absent OR its value is the empty string. -/
def amended_select_levels (t : BuildingTags) : Option String :=
  match t.buildingLevels with
  | some v => if v = "" then t.levels else some v
  | none => t.levels

/-- Amended floor collection for claim C5: select via
`amended_select_levels`, skip the sample when the selected value is missing
or is the empty string, otherwise include it exactly when it parses as an
integer. -/
def amended_floor_values (elements : List BuildingElem) : List Int :=
  elements.filterMap (fun element =>
    match element.tags with
    | none => none
    | some t =>
      match amended_select_levels t with
      | none => none
      | some v => if v = "" then none else pyInt? v)

/-- Amended building aggregation for claim C5: count all samples, and average
the amended collected floor values with default 1. -/
def amended_building_features (elements : List BuildingElem) : Nat × ℚ :=
  let collected := amended_floor_values elements
  (elements.length,
   if collected = [] then 1
   else ((collected.sum : ℤ) : ℚ) / (collected.length : ℚ))

/-- Projection helper: the `area_type` field of `determine_5g_config` as a
single conditional on the density. -/
theorem determine_5g_config_area_type (s d f : ℚ) :
    (determine_5g_config s d f).area_type =
      if d ≥ 5000 then AreaType.bigCapital
      else if 1000 ≤ d ∧ d < 5000 then AreaType.urban
      else AreaType.ruralMountain := by
  unfold determine_5g_config
  split_ifs <;> rfl

example : pyInt? "42" = some 42 := by decide
example : pyInt? "walk" = none := by decide
example : pyInt? "" = none := by decide
example : pyInt? "-2" = some (-2) := by decide
example : get_speed_limit "walk" = 50 := by decide
example : (determine_5g_config 80 6000 2).subcarrier = Subcarrier.k60 := by decide
example : (determine_5g_config 40 6000 4).frequency = Frequency.g30 := by decide
example : (determine_5g_config 80 2000 1).subcarrier = Subcarrier.k120 := by decide
example : (determine_5g_config 30 500 1).area_type = AreaType.ruralMountain := by decide

/-- Claim C1: the `area_type` returned by `determine_5g_config` is
`bigCapital` iff the density is at least 5000, `urban` iff the density is in
`[1000, 5000)`, `ruralMountain` iff the density is below 1000, and the
`area_type` depends on the density alone. -/
theorem claim_C1_area_tiers (s d f : ℚ) :
    ((determine_5g_config s d f).area_type = AreaType.bigCapital ↔ d ≥ 5000) ∧
    ((determine_5g_config s d f).area_type = AreaType.urban ↔ 1000 ≤ d ∧ d < 5000) ∧
    ((determine_5g_config s d f).area_type = AreaType.ruralMountain ↔ d < 1000) ∧
    (∀ s' f' : ℚ,
      (determine_5g_config s' d f').area_type = (determine_5g_config s d f).area_type) := by
  refine ⟨?_, ?_, ?_, fun s' f' =>
    (determine_5g_config_area_type s' d f').trans (determine_5g_config_area_type s d f).symm⟩ <;>
      rw [determine_5g_config_area_type] <;> split_ifs with h1 h2
  · simpa using h1
  · simpa using h1
  · simpa using h1
  · refine ⟨fun h => absurd h (by simp), fun h => absurd h.2 (not_lt.mpr h1)⟩
  · simpa using h2
  · exact ⟨fun h => absurd h (by simp), fun h => absurd h h2⟩
  · exact ⟨fun h => absurd h (by simp), fun h => absurd h (not_lt.mpr (by linarith))⟩
  · exact ⟨fun h => absurd h (by simp), fun h => absurd h (not_lt.mpr h2.1)⟩
  · refine ⟨fun _ => ?_, fun _ => rfl⟩
    by_contra hc
    push_neg at hc
    exact h2 ⟨hc, lt_of_not_le h1⟩

/-- Witness for claim C1 at the concrete density 6000. -/
theorem claim_C1_area_tiers_witness :
    (determine_5g_config 50 6000 1).area_type = AreaType.bigCapital :=
  (claim_C1_area_tiers 50 6000 1).1.mpr (by norm_num)

/-- Claim C2: for every input triple, the subcarrier returned by
`determine_5g_config` equals the five-row spec table `spec_subcarrier`. -/
theorem claim_C2_subcarrier_table (s d f : ℚ) :
    (determine_5g_config s d f).subcarrier = spec_subcarrier s d f := by
  unfold determine_5g_config spec_subcarrier
  split_ifs <;> rfl

/-- Claim C3: for every input triple, the frequency and cyclic prefix
returned by `determine_5g_config` equal the spec tables `spec_frequency`
(area type plus floors) and `spec_cyclic` (area type alone). -/
theorem claim_C3_frequency_cyclic (s d f : ℚ) :
    (determine_5g_config s d f).frequency = spec_frequency d f ∧
    (determine_5g_config s d f).cyclic = spec_cyclic d := by
  unfold determine_5g_config spec_frequency spec_cyclic
  split_ifs <;> exact ⟨rfl, rfl⟩

/-- The code's speed value list is the 50-substitution map over the carried
maxspeed values. -/
theorem road_speed_values_eq_map (elements : List RoadElem) :
    road_speed_values elements = (carried_maxspeeds elements).map get_speed_limit := by
  induction elements with
  | nil => rfl
  | cons w rest ih =>
    unfold road_speed_values carried_maxspeeds at *
    cases hw : w.tags with
    | none => simp [List.filterMap_cons, hw, ih]
    | some t =>
      cases hm : t.maxspeed with
      | none => simp [List.filterMap_cons, hw, hm, ih]
      | some v => simp [List.filterMap_cons, hw, hm, ih]

/-- Claim C4: the road aggregation returns the arithmetic mean over all
samples carrying a `maxspeed` key after substituting 50 for unparseable
values (50 when no sample carries the key), and the total sample count. -/
theorem claim_C4_road_aggregation (elements : List RoadElem) :
    aggregate_road_features elements = (spec_avg_speed elements, elements.length) := by
  unfold aggregate_road_features spec_avg_speed
  rw [road_speed_values_eq_map]
  by_cases h : carried_maxspeeds elements = []
  · simp [h]
  · have h2 : (carried_maxspeeds elements).map get_speed_limit ≠ [] := by simpa using h
    simp [if_neg h2, if_neg h, List.length_map]

/-- Counterexample to claim C5 as stated: on the single sample whose
`building:levels` value is the empty string and whose `levels` value is `4`,
the code's aggregation (which falls back on the empty string and collects 4)
differs from the claim's description (fall back only on an ABSENT key, so
the empty string is selected, fails to parse, and the sample is skipped). -/
theorem claim_C5_counterexample :
    aggregate_building_features [⟨some ⟨some sEmpty, some sFour⟩⟩] ≠
      spec_building_features [⟨some ⟨some sEmpty, some sFour⟩⟩] := by
  have hcode : get_building_levels [⟨some ⟨some sEmpty, some sFour⟩⟩] = [4] := by decide
  have hspec : spec_floor_values [⟨some ⟨some sEmpty, some sFour⟩⟩] = [] := by decide
  unfold aggregate_building_features spec_building_features
  rw [hcode, hspec]
  norm_num [Prod.ext_iff]

/-- The code's floor collection equals the amended description: fall back to
`levels` when `building:levels` is absent OR empty, skip a sample whose
selected value is missing or empty, include exactly the parseable values. -/
theorem get_building_levels_eq_amended (elements : List BuildingElem) :
    get_building_levels elements = amended_floor_values elements := by
  induction elements with
  | nil => rfl
  | cons e rest ih =>
    unfold get_building_levels amended_floor_values at *
    cases he : e.tags with
    | none => simp [List.filterMap_cons, he, ih]
    | some t =>
      cases hb : t.buildingLevels with
      | none => simp [List.filterMap_cons, he, hb, pyOr, amended_select_levels, ih]
      | some v =>
        by_cases hv : v = "" <;>
          simp [List.filterMap_cons, he, hb, hv, pyOr, amended_select_levels, ih]

/-- Claim C5 (amended): the building aggregation counts all samples and
averages (default 1) the floor values collected with the truthiness
fallback: `levels` is used when `building:levels` is absent or empty, a
sample whose selected value is missing or empty is skipped, every other
value is included exactly when it parses as an integer. -/
theorem claim_C5_building_aggregation_amended (elements : List BuildingElem) :
    aggregate_building_features elements = amended_building_features elements := by
  unfold aggregate_building_features amended_building_features
  rw [get_building_levels_eq_amended]

/-- Claim C10: a `building:levels` tag holding the empty string behaves like
an absent key (the truthiness `or` falls back to `levels`), a sample whose
selected value is the empty string is skipped entirely, and the sample
`{building:levels: "", levels: "4"}` contributes the value 4. -/
theorem claim_C10_empty_string_truthiness :
    (∀ (lv : Option String) (rest : List BuildingElem),
      get_building_levels (⟨some ⟨some sEmpty, lv⟩⟩ :: rest) =
        get_building_levels (⟨some ⟨none, lv⟩⟩ :: rest)) ∧
    (∀ (t : BuildingTags) (rest : List BuildingElem),
      pyOr t.buildingLevels t.levels = some sEmpty →
      get_building_levels (⟨some t⟩ :: rest) = get_building_levels rest) ∧
    get_building_levels [⟨some ⟨some sEmpty, some sFour⟩⟩] = [4] := by
  refine ⟨fun lv rest => ?_, fun t rest h => ?_, by decide⟩
  · unfold get_building_levels
    simp [List.filterMap_cons, pyOr, sEmpty]
  · unfold get_building_levels
    simp [List.filterMap_cons, h, sEmpty]

/-- Witness for claim C10 at a concrete sample whose selected value is the
empty string. -/
theorem claim_C10_empty_string_truthiness_witness :
    get_building_levels [⟨some ⟨some sEmpty, some sEmpty⟩⟩] = get_building_levels [] :=
  claim_C10_empty_string_truthiness.2.1 ⟨some sEmpty, some sEmpty⟩ [] (by decide)

/-- Claim C6: for every input with positive radius,
`estimate_population_density` returns exactly
`(building_count * avg_floors * occupants_per_floor) / (pi * (radius/1000)^2)`
with defaults `radius = 5000` and `occupants_per_floor = 30`. -/
theorem claim_C6_density_formula (bc f r opf : ℚ) (hr : 0 < r) :
    estimate_population_density bc f r opf =
      (bc * f * opf) / (mathPi * (r / 1000) ^ 2) ∧
    default_radius = 5000 ∧ default_occupants_per_floor = 30 :=
  ⟨rfl, rfl, rfl⟩

/-- Witness for claim C6 at a concrete input with the default radius. -/
theorem claim_C6_density_formula_witness :
    estimate_population_density 1 2 5000 30 =
      (1 * 2 * 30) / (mathPi * ((5000 : ℚ) / 1000) ^ 2) :=
  (claim_C6_density_formula 1 2 5000 30 (by norm_num)).1

/-- Counterexample to claim C7 as stated: the building aggregation can emit
`avg_floors = 0` (a parseable `building:levels` tag `0`), and then the
density is 0 even though `building_count = 1 ≠ 0`, refuting `density = 0`
only when `building_count = 0`. -/
theorem claim_C7_counterexample :
    aggregate_building_features [⟨some ⟨some sZero, none⟩⟩] = (1, 0) ∧
    estimate_population_density 1 0 5000 30 = 0 ∧ (1 : ℕ) ≠ 0 := by
  refine ⟨?_, ?_, by decide⟩
  · have hcode : get_building_levels [⟨some ⟨some sZero, none⟩⟩] = [0] := by decide
    unfold aggregate_building_features
    rw [hcode]
    norm_num
  · unfold estimate_population_density
    norm_num

/-- Claim C7 (amended): for a nonnegative `avg_floors` arising from the
building aggregation, the density at the pipeline's fixed radius 5000 and
occupancy 30 is nonnegative, and it is 0 exactly when `building_count = 0`
or `avg_floors = 0`; moreover `estimate_population_density 0 g 5000 30 = 0`
for every `g`. -/
theorem claim_C7_amended (elements : List BuildingElem) (bc : ℕ) (f : ℚ)
    (hagg : aggregate_building_features elements = (bc, f)) (hf : 0 ≤ f) :
    0 ≤ estimate_population_density bc f 5000 30 ∧
    (estimate_population_density bc f 5000 30 = 0 ↔ (bc : ℚ) = 0 ∨ f = 0) ∧
    ∀ g : ℚ, estimate_population_density 0 g 5000 30 = 0 := by
  have hA : (0 : ℚ) < mathPi * ((5000 : ℚ) / 1000) ^ 2 := by norm_num [mathPi]
  have key : estimate_population_density bc f 5000 30 =
      ((bc : ℚ) * f * 30) / (mathPi * ((5000 : ℚ) / 1000) ^ 2) := rfl
  rw [key]
  refine ⟨div_nonneg (mul_nonneg (mul_nonneg (Nat.cast_nonneg bc) hf) (by norm_num)) hA.le,
    ?_, fun g => by simp [estimate_population_density]⟩
  rw [div_eq_zero_iff]
  constructor
  · rintro (h | h)
    · rcases mul_eq_zero.mp h with h' | h'
      · exact mul_eq_zero.mp h'
      · exact absurd h' (by norm_num)
    · exact absurd h (ne_of_gt hA)
  · rintro (h | h) <;> simp [h]

/-- Witness for claim C7 (amended) on the empty sample list. -/
theorem claim_C7_amended_witness :
    0 ≤ estimate_population_density 0 1 5000 30 ∧
    (estimate_population_density 0 1 5000 30 = 0 ↔ ((0 : ℕ) : ℚ) = 0 ∨ (1 : ℚ) = 0) ∧
    ∀ g : ℚ, estimate_population_density 0 g 5000 30 = 0 :=
  claim_C7_amended [] 0 1 (by decide) (by norm_num)

/-- Counterexample to claim C8 as stated: the call with the negative radius
-5000 violates the precondition yet silently returns a value (the value at
radius 5000) instead of failing fast. -/
theorem claim_C8_counterexample :
    estimate_population_density_run 1 1 (-5000) 30 =
      Except.ok (estimate_population_density 1 1 5000 30) ∧ (-5000 : ℚ) < 0 := by
  constructor
  · unfold estimate_population_density_run estimate_population_density
    norm_num [mathPi]
  · norm_num

/-- Claim C8 (amended): the function fails fast (Python `ZeroDivisionError`)
exactly when the radius is 0; for every nonzero radius, including negative
ones, it silently performs the division and returns the quotient. -/
theorem claim_C8_amended (bc f opf r : ℚ) :
    (r = 0 → estimate_population_density_run bc f r opf = Except.error ()) ∧
    (r ≠ 0 → estimate_population_density_run bc f r opf =
      Except.ok (estimate_population_density bc f r opf)) := by
  have hpi : mathPi ≠ 0 := by norm_num [mathPi]
  constructor
  · intro h
    subst h
    unfold estimate_population_density_run
    norm_num
  · intro h
    have hA : mathPi * (r / 1000) ^ 2 ≠ 0 :=
      mul_ne_zero hpi (pow_ne_zero 2 (div_ne_zero h (by norm_num)))
    unfold estimate_population_density_run estimate_population_density
    simp [hA]

/-- Witness for claim C8 (amended) at radius 0 and radius -5000. -/
theorem claim_C8_amended_witness :
    estimate_population_density_run 1 1 0 30 = Except.error () ∧
    estimate_population_density_run 1 1 (-5000) 30 =
      Except.ok (estimate_population_density 1 1 (-5000) 30) :=
  ⟨(claim_C8_amended 1 1 30 0).1 rfl, (claim_C8_amended 1 1 30 (-5000)).2 (by norm_num)⟩

/-- Counterexample to claim C9 as stated: with `avg_floors = 0` held fixed,
increasing `building_count` from 0 to 1 does not increase the density. -/
theorem claim_C9_counterexample :
    estimate_population_density 0 0 5000 30 = estimate_population_density 1 0 5000 30 ∧
    (0 : ℚ) < 1 := by
  constructor
  · unfold estimate_population_density
    norm_num
  · norm_num

/-- Claim C9 (amended): with the fixed inputs positive (radius and occupancy
positive, and the held factor positive), the density is strictly increasing
in `building_count` and in `avg_floors`. -/
theorem claim_C9_amended (r opf : ℚ) (hr : 0 < r) (hopf : 0 < opf) :
    (∀ f : ℚ, 0 < f → ∀ b1 b2 : ℚ, b1 < b2 →
      estimate_population_density b1 f r opf < estimate_population_density b2 f r opf) ∧
    (∀ bc : ℚ, 0 < bc → ∀ f1 f2 : ℚ, f1 < f2 →
      estimate_population_density bc f1 r opf < estimate_population_density bc f2 r opf) := by
  have hA : (0 : ℚ) < mathPi * (r / 1000) ^ 2 := by
    have hpi : (0 : ℚ) < mathPi := by norm_num [mathPi]
    exact mul_pos hpi (pow_pos (div_pos hr (by norm_num)) 2)
  constructor
  · intro f hf b1 b2 hb
    show (b1 * f * opf) / (mathPi * (r / 1000) ^ 2) < (b2 * f * opf) / (mathPi * (r / 1000) ^ 2)
    rw [div_lt_div_iff_of_pos_right hA]
    exact mul_lt_mul_of_pos_right (mul_lt_mul_of_pos_right hb hf) hopf
  · intro bc hbc f1 f2 hff
    show (bc * f1 * opf) / (mathPi * (r / 1000) ^ 2) < (bc * f2 * opf) / (mathPi * (r / 1000) ^ 2)
    rw [div_lt_div_iff_of_pos_right hA]
    exact mul_lt_mul_of_pos_right (mul_lt_mul_of_pos_left hff hbc) hopf

/-- Witness for claim C9 (amended) at concrete inputs. -/
theorem claim_C9_amended_witness :
    estimate_population_density 0 1 5000 30 < estimate_population_density 1 1 5000 30 :=
  (claim_C9_amended 5000 30 (by norm_num) (by norm_num)).1 1 (by norm_num) 0 1 (by norm_num)
